import Mathlib

/-!
# Verification of the coordinate reconciliation and two-phase capture pipeline

Shallow embedding of the coordinate pipeline of this repository:

* `src/app/lib/imagePreprocessing.ts` — `pixelBoxToPageBox`, `mapOcrBoxesToPage`
* `src/app/lib/coordinateMapping.ts` — `mapLocalOcrCoordinates`,
  `applyScaleCorrectionToOCRCoordinates`, `mapLocalOcrCoordinatesWithAutoCorrection`
* `src/app/lib/tesseractOCR.ts` — the internal-scale-factor detection inside
  `TesseractOCRProcessor.processImage`
* `src/app/lib/smartPositioning.ts` — the spatial placement engine
* `src/app/hooks/useHandwritingOCR.ts` — `validateAndFixGPTCoordinates`, the
  error-to-page conversion step, and the two-phase `initializeOCR` /
  `processSelectedShapes` state machine

JavaScript numbers are idealised as exact rationals.  Where the code's
behaviour on non-finite values matters (`pixelBoxToPageBox` checks
`Number.isFinite` and produces `NaN` boxes) we model a JavaScript number
symbolically as either a finite rational or one of the three non-finite
values `+Infinity`, `-Infinity`, `NaN`, with IEEE-754 arithmetic on those
symbolic values.  Fields that may be `undefined` are modelled with `Option`.
-/

/-- A JavaScript number: a finite value (idealised as an exact rational),
one of the two infinities, or `NaN`. -/
inductive JSNum where
  | fin (q : ℚ)
  | posInf
  | negInf
  | nan
deriving DecidableEq, Repr

namespace JSNum

/-- IEEE-754 addition on symbolic JavaScript numbers. -/
def add : JSNum → JSNum → JSNum
  | fin a, fin b => fin (a + b)
  | fin _, posInf => posInf
  | fin _, negInf => negInf
  | posInf, fin _ => posInf
  | negInf, fin _ => negInf
  | posInf, posInf => posInf
  | negInf, negInf => negInf
  | posInf, negInf => nan
  | negInf, posInf => nan
  | nan, _ => nan
  | _, nan => nan

/-- IEEE-754 negation. -/
def neg : JSNum → JSNum
  | fin a => fin (-a)
  | posInf => negInf
  | negInf => posInf
  | nan => nan

/-- IEEE-754 subtraction. -/
def sub (a b : JSNum) : JSNum := add a (neg b)

/-- IEEE-754 multiplication on symbolic JavaScript numbers. -/
def mul : JSNum → JSNum → JSNum
  | fin a, fin b => fin (a * b)
  | fin a, posInf => if a > 0 then posInf else if a < 0 then negInf else nan
  | fin a, negInf => if a > 0 then negInf else if a < 0 then posInf else nan
  | posInf, fin b => if b > 0 then posInf else if b < 0 then negInf else nan
  | negInf, fin b => if b > 0 then negInf else if b < 0 then posInf else nan
  | posInf, posInf => posInf
  | posInf, negInf => negInf
  | negInf, posInf => negInf
  | negInf, negInf => posInf
  | nan, _ => nan
  | _, nan => nan

/-- IEEE-754 division on symbolic JavaScript numbers (the sign of a zero
divisor is not tracked; a finite value divided by zero maps to the infinity
matching the numerator's sign, `0/0` to `NaN`, as with a positive zero). -/
def div : JSNum → JSNum → JSNum
  | fin a, fin b =>
      if b ≠ 0 then fin (a / b)
      else if a > 0 then posInf else if a < 0 then negInf else nan
  | fin _, posInf => fin 0
  | fin _, negInf => fin 0
  | posInf, fin b => if b ≥ 0 then posInf else negInf
  | negInf, fin b => if b ≥ 0 then negInf else posInf
  | posInf, posInf => nan
  | posInf, negInf => nan
  | negInf, posInf => nan
  | negInf, negInf => nan
  | nan, _ => nan
  | _, nan => nan

/-- `Number.isFinite`. -/
def isFinite : JSNum → Bool
  | fin _ => true
  | _ => false

/-- `Number.isNaN` / global `isNaN` on a number value. -/
def isNaN : JSNum → Bool
  | nan => true
  | _ => false

/-- JavaScript strict equality `===` on two numbers (`NaN === NaN` is
false; equal finite values and equal infinities compare true). -/
def strictEq : JSNum → JSNum → Bool
  | fin a, fin b => a == b
  | posInf, posInf => true
  | negInf, negInf => true
  | _, _ => false

end JSNum

/-- `Number.isFinite` applied to a possibly-`undefined` value
(`Number.isFinite(undefined)` is `false`). -/
def optIsFinite : Option JSNum → Bool
  | some v => v.isFinite
  | none => false

/-- Arithmetic coercion of a possibly-`undefined` value: `undefined`
becomes `NaN` when used in an arithmetic expression. -/
def optToNum : Option JSNum → JSNum
  | some v => v
  | none => JSNum.nan

/-! ## `src/app/lib/imagePreprocessing.ts` — pixel → page mapping -/

/-- The `bbox` sub-object an input box may carry
(`box.bbox?.x` etc. in `pixelBoxToPageBox`); each field may be absent. -/
structure BBoxInput where
  x : Option JSNum
  y : Option JSNum
  w : Option JSNum
  h : Option JSNum
deriving DecidableEq, Repr

/-- The untyped (`any`) box passed to `pixelBoxToPageBox`: its `id`,
coordinate fields and `bbox` sub-object may each be absent. -/
structure OcrBoxInput where
  id : Option String
  x : Option JSNum
  y : Option JSNum
  w : Option JSNum
  h : Option JSNum
  bbox : Option BBoxInput
deriving DecidableEq, Repr

/-- `DomImageData` from `imagePreprocessing.ts`:
`{ rect: {x,y,width,height}, naturalWidth, naturalHeight }`. -/
structure DomImageData where
  rectX : JSNum
  rectY : JSNum
  rectWidth : JSNum
  rectHeight : JSNum
  naturalWidth : JSNum
  naturalHeight : JSNum
deriving DecidableEq, Repr

/-- `PageBox` from `imagePreprocessing.ts` (the `id` of the box returned on
the success path is `box.id`, which the source does not default, hence
`Option String`). -/
structure PageBox where
  id : Option String
  x : JSNum
  y : JSNum
  w : JSNum
  h : JSNum
deriving DecidableEq, Repr

/-- `bx = Number.isFinite(box.x) ? box.x : box.bbox?.x` — the field
resolution at the top of `pixelBoxToPageBox`. -/
def resolveField (primary : Option JSNum) (fallback : Option JSNum) : Option JSNum :=
  if optIsFinite primary then primary else fallback

/-- Embedding of `pixelBoxToPageBox` (`imagePreprocessing.ts`, lines
297–357).  The `editor` parameter of the source is never read by the
function body and is omitted.  Development-mode `console` logging is a pure
side channel and is not modelled.  The function is total: every input
object yields a `PageBox`, never an exception. -/
def pixelBoxToPageBox (box : OcrBoxInput) (img : DomImageData) : PageBox :=
  let bx := resolveField box.x (box.bbox.bind BBoxInput.x)
  let by' := resolveField box.y (box.bbox.bind BBoxInput.y)
  let bw := resolveField box.w (box.bbox.bind BBoxInput.w)
  let bh := resolveField box.h (box.bbox.bind BBoxInput.h)
  if ¬ (optIsFinite bx) ∨ ¬ (optIsFinite by') then
    { id := some (box.id.getD "unknown"),
      x := JSNum.nan, y := JSNum.nan, w := JSNum.nan, h := JSNum.nan }
  else
    let scaleX := JSNum.div img.rectWidth img.naturalWidth
    let scaleY := JSNum.div img.rectHeight img.naturalHeight
    let pageX1 := JSNum.add img.rectX (JSNum.mul (optToNum bx) scaleX)
    let pageY1 := JSNum.add img.rectY (JSNum.mul (optToNum by') scaleY)
    let pageX2 := JSNum.add img.rectX
      (JSNum.mul (JSNum.add (optToNum bx) (optToNum bw)) scaleX)
    let pageY2 := JSNum.add img.rectY
      (JSNum.mul (JSNum.add (optToNum by') (optToNum bh)) scaleY)
    { id := box.id,
      x := pageX1,
      y := pageY1,
      w := JSNum.sub pageX2 pageX1,
      h := JSNum.sub pageY2 pageY1 }

/-- Embedding of `mapOcrBoxesToPage` (`imagePreprocessing.ts`): batch
conversion of OCR pixel boxes. -/
def mapOcrBoxesToPage (boxes : List OcrBoxInput) (img : DomImageData) : List PageBox :=
  boxes.map (fun b => pixelBoxToPageBox b img)

/-! ### Claims C1, C2, C10 about `pixelBoxToPageBox` -/

/-- Shared evaluation lemma: on a box whose four fields are finite and a
finite geometry with non-zero natural dimensions, `pixelBoxToPageBox`
computes the two-corner page mapping. -/
theorem pixelBoxToPageBox_of_fin
    (box : OcrBoxInput) (img : DomImageData)
    (bx by_ bw bh rx ry rw rh nw nh : ℚ)
    (hx : box.x = some (.fin bx)) (hy : box.y = some (.fin by_))
    (hw : box.w = some (.fin bw)) (hh : box.h = some (.fin bh))
    (hrx : img.rectX = .fin rx) (hry : img.rectY = .fin ry)
    (hrw : img.rectWidth = .fin rw) (hrh : img.rectHeight = .fin rh)
    (hnw : img.naturalWidth = .fin nw) (hnh : img.naturalHeight = .fin nh)
    (hnwpos : 0 < nw) (hnhpos : 0 < nh) :
    pixelBoxToPageBox box img =
      { id := box.id,
        x := .fin (rx + bx * (rw / nw)),
        y := .fin (ry + by_ * (rh / nh)),
        w := .fin ((rx + (bx + bw) * (rw / nw)) - (rx + bx * (rw / nw))),
        h := .fin ((ry + (by_ + bh) * (rh / nh)) - (ry + by_ * (rh / nh))) } := by
  simp only [pixelBoxToPageBox, resolveField, optIsFinite, optToNum,
    hx, hy, hw, hh, hrx, hry, hrw, hrh, hnw, hnh,
    JSNum.isFinite, JSNum.div, JSNum.add, JSNum.mul, JSNum.sub, JSNum.neg,
    hnwpos.ne', hnhpos.ne', ne_eq, not_false_eq_true, if_true, if_pos]
  simp only [not_true_eq_false, or_self, if_false]
  congr 1 <;> ring_nf

/-- C1: for every pixel box `{x,y,w,h}` (finite fields) and image geometry
with finite page rectangle and positive `naturalWidth`/`naturalHeight`,
`pixelBoxToPageBox` returns `x = pageRect.x + box.x * (pageRect.w / naturalWidth)`,
`y = pageRect.y + box.y * (pageRect.h / naturalHeight)`, and `w`/`h` equal to the
difference between the similarly-mapped far corner and the near corner. -/
theorem pixelBoxToPageBox_formula
    (box : OcrBoxInput) (img : DomImageData)
    (bx by_ bw bh rx ry rw rh nw nh : ℚ)
    (hx : box.x = some (.fin bx)) (hy : box.y = some (.fin by_))
    (hw : box.w = some (.fin bw)) (hh : box.h = some (.fin bh))
    (hrx : img.rectX = .fin rx) (hry : img.rectY = .fin ry)
    (hrw : img.rectWidth = .fin rw) (hrh : img.rectHeight = .fin rh)
    (hnw : img.naturalWidth = .fin nw) (hnh : img.naturalHeight = .fin nh)
    (hnwpos : 0 < nw) (hnhpos : 0 < nh) :
    pixelBoxToPageBox box img =
      { id := box.id,
        x := .fin (rx + bx * (rw / nw)),
        y := .fin (ry + by_ * (rh / nh)),
        w := .fin ((rx + (bx + bw) * (rw / nw)) - (rx + bx * (rw / nw))),
        h := .fin ((ry + (by_ + bh) * (rh / nh)) - (ry + by_ * (rh / nh))) } :=
  pixelBoxToPageBox_of_fin box img bx by_ bw bh rx ry rw rh nw nh
    hx hy hw hh hrx hry hrw hrh hnw hnh hnwpos hnhpos

/-- Witness for C1: the spec's concrete example.  Geometry
`{pageRect:{x:100,y:200,w:300,h:150}, naturalWidth:900, naturalHeight:450}`
maps the pixel box `{x:90,y:45,w:30,h:45}` to the page box
`{x:130,y:215,w:10,h:15}`. -/
theorem pixelBoxToPageBox_formula_witness :
    pixelBoxToPageBox
      { id := some "b1", x := some (.fin 90), y := some (.fin 45),
        w := some (.fin 30), h := some (.fin 45), bbox := none }
      { rectX := .fin 100, rectY := .fin 200, rectWidth := .fin 300,
        rectHeight := .fin 150, naturalWidth := .fin 900, naturalHeight := .fin 450 } =
      { id := some "b1", x := .fin 130, y := .fin 215, w := .fin 10, h := .fin 15 } := by
  rw [pixelBoxToPageBox_formula _ _ 90 45 30 45 100 200 300 150 900 450
    rfl rfl rfl rfl rfl rfl rfl rfl rfl rfl (by norm_num) (by norm_num)]
  norm_num

/-- C2: mapping the full-image pixel box `{0, 0, naturalWidth, naturalHeight}`
through `pixelBoxToPageBox` yields exactly the geometry's page rectangle. -/
theorem pixelBoxToPageBox_roundTrip
    (box : OcrBoxInput) (img : DomImageData)
    (rx ry rw rh nw nh : ℚ)
    (hrx : img.rectX = .fin rx) (hry : img.rectY = .fin ry)
    (hrw : img.rectWidth = .fin rw) (hrh : img.rectHeight = .fin rh)
    (hnw : img.naturalWidth = .fin nw) (hnh : img.naturalHeight = .fin nh)
    (hnwpos : 0 < nw) (hnhpos : 0 < nh)
    (hx : box.x = some (.fin 0)) (hy : box.y = some (.fin 0))
    (hw : box.w = some (.fin nw)) (hh : box.h = some (.fin nh)) :
    pixelBoxToPageBox box img =
      { id := box.id, x := .fin rx, y := .fin ry, w := .fin rw, h := .fin rh } := by
  rw [pixelBoxToPageBox_of_fin box img 0 0 nw nh rx ry rw rh nw nh
    hx hy hw hh hrx hry hrw hrh hnw hnh hnwpos hnhpos]
  congr 1 <;>
    field_simp

/-- Witness for C2: the full-image box of the spec-example geometry maps to
its page rectangle `{100, 200, 300, 150}`. -/
theorem pixelBoxToPageBox_roundTrip_witness :
    pixelBoxToPageBox
      { id := some "full", x := some (.fin 0), y := some (.fin 0),
        w := some (.fin 900), h := some (.fin 450), bbox := none }
      { rectX := .fin 100, rectY := .fin 200, rectWidth := .fin 300,
        rectHeight := .fin 150, naturalWidth := .fin 900, naturalHeight := .fin 450 } =
      { id := some "full", x := .fin 100, y := .fin 200, w := .fin 300, h := .fin 150 } :=
  pixelBoxToPageBox_roundTrip _ _ 100 200 300 150 900 450
    rfl rfl rfl rfl rfl rfl (by norm_num) (by norm_num) rfl rfl rfl rfl

/-- C10: `pixelBoxToPageBox` is a total function (it returns a `PageBox` for
every input object, never an exception), and whenever the resolved `x` or
`y` coordinate (the box's own field, falling back to `bbox.x`/`bbox.y`) is
not a finite number, it returns a box whose `id` is the input's `id`
(defaulted to `"unknown"` when absent) and whose `x`, `y`, `w`, `h` are all
`NaN`. -/
theorem pixelBoxToPageBox_nonfinite
    (box : OcrBoxInput) (img : DomImageData)
    (h : optIsFinite (resolveField box.x (box.bbox.bind BBoxInput.x)) = false ∨
         optIsFinite (resolveField box.y (box.bbox.bind BBoxInput.y)) = false) :
    pixelBoxToPageBox box img =
      { id := some (box.id.getD "unknown"),
        x := JSNum.nan, y := JSNum.nan, w := JSNum.nan, h := JSNum.nan } := by
  unfold pixelBoxToPageBox
  rcases h with h | h <;> simp [h]

/-- Witness for C10: a box whose `x` is `NaN` with an absent `bbox`
fallback yields the all-`NaN` page box with id `"unknown"`. -/
theorem pixelBoxToPageBox_nonfinite_witness :
    pixelBoxToPageBox
      { id := none, x := some .nan, y := some (.fin 5),
        w := some (.fin 1), h := some (.fin 1), bbox := none }
      { rectX := .fin 0, rectY := .fin 0, rectWidth := .fin 10,
        rectHeight := .fin 10, naturalWidth := .fin 10, naturalHeight := .fin 10 } =
      { id := some "unknown",
        x := JSNum.nan, y := JSNum.nan, w := JSNum.nan, h := JSNum.nan } :=
  pixelBoxToPageBox_nonfinite _ _ (Or.inl (by decide))

/-! ## `src/app/lib/coordinateMapping.ts` — local mapping and scale correction

Here every number that actually occurs is an ordinary finite JavaScript
number, so coordinates are idealised as exact rationals.  The optional
`w`/`h` fields of an OCR coordinate object are modelled with `Option ℚ`
(`none` = property absent). -/

/-- An OCR coordinate object `{ x, y, w?, h? }`. -/
structure OcrCoord where
  x : ℚ
  y : ℚ
  w : Option ℚ
  h : Option ℚ
deriving DecidableEq, Repr

/-- `BoundingBox` from `coordinateMapping.ts`. -/
structure BoundingBox where
  x : ℚ
  y : ℚ
  w : ℚ
  h : ℚ
deriving DecidableEq, Repr

/-- `{ width, height }` image size passed to the auto-correcting mapper. -/
structure ImageSize where
  width : ℚ
  height : ℚ
deriving DecidableEq, Repr

/-- Embedding of `mapLocalOcrCoordinates` (`coordinateMapping.ts`): if the
coordinate has both `w` and `h` properties it is translated as a box
(dimensions preserved), otherwise as a point (the returned object then has
no `w`/`h` properties, so a lone `w` or `h` is dropped, as in the source). -/
def mapLocalOcrCoordinates (ocrCoord : OcrCoord) (selectionBounds : BoundingBox) : OcrCoord :=
  if ocrCoord.w.isSome ∧ ocrCoord.h.isSome then
    { x := selectionBounds.x + ocrCoord.x,
      y := selectionBounds.y + ocrCoord.y,
      w := ocrCoord.w,
      h := ocrCoord.h }
  else
    { x := selectionBounds.x + ocrCoord.x,
      y := selectionBounds.y + ocrCoord.y,
      w := none,
      h := none }

/-- Embedding of `applyScaleCorrectionToOCRCoordinates`
(`coordinateMapping.ts`): divides `x` and `y` by the correction factor and
each of `w`/`h` when present (the source default `correctionFactor = 2` is
always overridden at the call site we verify). -/
def applyScaleCorrectionToOCRCoordinates (ocrCoord : OcrCoord) (correctionFactor : ℚ) : OcrCoord :=
  { x := ocrCoord.x / correctionFactor,
    y := ocrCoord.y / correctionFactor,
    w := ocrCoord.w.map (· / correctionFactor),
    h := ocrCoord.h.map (· / correctionFactor) }

/-- JavaScript truthiness of a possibly-absent number in the heuristic
test `ocrCoord.w && ocrCoord.w > …` — `undefined` and `0` are falsy
(`NaN` does not occur here, all values being finite rationals). -/
def optTruthy : Option ℚ → Prop
  | some v => v ≠ 0
  | none => False

instance : DecidablePred optTruthy := by
  intro o; cases o <;> simp [optTruthy] <;> infer_instance

/-- The `isOversized` heuristic of
`mapLocalOcrCoordinatesWithAutoCorrection`: a coordinate or dimension
beyond `1.5×` / `0.8×` the nominal image dimensions. -/
def isOversized (ocrCoord : OcrCoord) (imageSize : ImageSize) : Prop :=
  ocrCoord.x > imageSize.width * (3 / 2) ∨
  ocrCoord.y > imageSize.height * (3 / 2) ∨
  (optTruthy ocrCoord.w ∧ ∀ v ∈ ocrCoord.w, v > imageSize.width * (4 / 5)) ∨
  (optTruthy ocrCoord.h ∧ ∀ v ∈ ocrCoord.h, v > imageSize.height * (4 / 5))

instance (c : OcrCoord) (s : ImageSize) : Decidable (isOversized c s) := by
  unfold isOversized; infer_instance

/-- Embedding of `mapLocalOcrCoordinatesWithAutoCorrection`
(`coordinateMapping.ts`, lines 77–114).  The authoritative factor reported
by the OCR stage is preferred (`detectedInternalScaleFactor &&
detectedInternalScaleFactor > 1`, where the first conjunct is JavaScript
truthiness of the number); otherwise the `isOversized` heuristic decides a
factor of 2; otherwise the factor stays 1 and the coordinate is passed to
`mapLocalOcrCoordinates` unchanged. -/
def mapLocalOcrCoordinatesWithAutoCorrection
    (ocrCoord : OcrCoord) (selectionBounds : BoundingBox) (imageSize : ImageSize)
    (detectedInternalScaleFactor : Option ℚ) : OcrCoord :=
  let correctedOcrCoord :=
    match detectedInternalScaleFactor with
    | some f =>
        if f ≠ 0 ∧ f > 1 then
          applyScaleCorrectionToOCRCoordinates ocrCoord f
        else if isOversized ocrCoord imageSize then
          applyScaleCorrectionToOCRCoordinates ocrCoord 2
        else ocrCoord
    | none =>
        if isOversized ocrCoord imageSize then
          applyScaleCorrectionToOCRCoordinates ocrCoord 2
        else ocrCoord
  mapLocalOcrCoordinates correctedOcrCoord selectionBounds

/-! ## `src/app/lib/tesseractOCR.ts` — internal scale-factor detection -/

/-- Embedding of the internal-scale-factor detection inside
`TesseractOCRProcessor.processImage` (`tesseractOCR.ts`, lines 147–183):
the height of the first recognised symbol (`bbox.y1 - bbox.y0`) is compared
to the height of the preprocessed image; a ratio above `0.5` sets the
detected factor to `2`, otherwise it stays `1`. -/
def detectInternalScaleFactor (firstSymbolY0 firstSymbolY1 imageHeight : ℚ) : ℚ :=
  let firstCharH := firstSymbolY1 - firstSymbolY0
  let charHeightRatio := firstCharH / imageHeight
  if charHeightRatio > 1 / 2 then 2 else 1

/-! ### Claims C3, C4 about scale-anomaly detection and correction -/

/-- C3: the OCR stage detects an internal scale factor of `2` exactly when
the first character's height exceeds half the image height (otherwise `1`),
and whenever a reported factor `f > 1` reaches the auto-correcting mapper
it is preferred over the heuristic (for any image size) and every
coordinate and dimension of the box (`x`, `y`, and `w`/`h` when present)
is divided by `f` before the local page translation is applied. -/
theorem scaleAnomalyDetectionAndCorrection :
    (∀ y0 y1 imageHeight : ℚ, (y1 - y0) / imageHeight > 1 / 2 →
      detectInternalScaleFactor y0 y1 imageHeight = 2) ∧
    (∀ y0 y1 imageHeight : ℚ, ¬ ((y1 - y0) / imageHeight > 1 / 2) →
      detectInternalScaleFactor y0 y1 imageHeight = 1) ∧
    (∀ (coord : OcrCoord) (bounds : BoundingBox) (size : ImageSize) (f : ℚ),
      f > 1 →
      mapLocalOcrCoordinatesWithAutoCorrection coord bounds size (some f) =
        mapLocalOcrCoordinates
          { x := coord.x / f, y := coord.y / f,
            w := coord.w.map (· / f), h := coord.h.map (· / f) } bounds) := by
  refine ⟨?_, ?_, ?_⟩
  · intro y0 y1 imageHeight h
    simp only [detectInternalScaleFactor]
    rw [if_pos h]
  · intro y0 y1 imageHeight h
    simp only [detectInternalScaleFactor]
    rw [if_neg h]
  · intro coord bounds size f hf
    have hne : f ≠ 0 := by positivity
    simp [mapLocalOcrCoordinatesWithAutoCorrection, hne, hf,
      applyScaleCorrectionToOCRCoordinates]

/-- Witness for C3, using the spec's example: first character of height 60
in an image of height 100 (ratio 0.6 > 0.5) detects factor 2, a ratio of
0.3 detects factor 1, and the box `{x:200,y:100,w:40,h:60}` with reported
factor 2 is corrected to `{x:100,y:50,w:20,h:30}` before translation by the
selection bounds `{x:10,y:20}`. -/
theorem scaleAnomalyDetectionAndCorrection_witness :
    detectInternalScaleFactor 0 60 100 = 2 ∧
    detectInternalScaleFactor 0 30 100 = 1 ∧
    mapLocalOcrCoordinatesWithAutoCorrection
      { x := 200, y := 100, w := some 40, h := some 60 }
      { x := 10, y := 20, w := 500, h := 400 }
      { width := 300, height := 200 } (some 2) =
      { x := 110, y := 70, w := some 20, h := some 30 } := by
  refine ⟨?_, ?_, ?_⟩
  · exact scaleAnomalyDetectionAndCorrection.1 0 60 100 (by norm_num)
  · exact scaleAnomalyDetectionAndCorrection.2.1 0 30 100 (by norm_num)
  · rw [scaleAnomalyDetectionAndCorrection.2.2 _ _ _ 2 (by norm_num)]
    simp [mapLocalOcrCoordinates]
    norm_num

/-- C4: for a box already within nominal bounds (`x ≤ 1.5×width`,
`y ≤ 1.5×height`, `w ≤ 0.8×width`, `h ≤ 0.8×height` when present) with no
reported internal scale factor greater than 1, the auto-correcting mapper
resolves the factor to 1: the correction step leaves coordinates and
dimensions unchanged and only the translation of
`mapLocalOcrCoordinates` is applied. -/
theorem mapLocalAutoCorrection_noop
    (coord : OcrCoord) (bounds : BoundingBox) (size : ImageSize) (d : Option ℚ)
    (hd : ∀ f ∈ d, f ≤ 1)
    (hx : coord.x ≤ size.width * (3 / 2))
    (hy : coord.y ≤ size.height * (3 / 2))
    (hw : ∀ v ∈ coord.w, v ≤ size.width * (4 / 5))
    (hh : ∀ v ∈ coord.h, v ≤ size.height * (4 / 5)) :
    mapLocalOcrCoordinatesWithAutoCorrection coord bounds size d =
      mapLocalOcrCoordinates coord bounds := by
  have hno : ¬ isOversized coord size := by
    rintro (h | h | ⟨ht, hgt⟩ | ⟨ht, hgt⟩)
    · exact absurd h (not_lt.mpr hx)
    · exact absurd h (not_lt.mpr hy)
    · rcases hv : coord.w with _ | v
      · rw [hv] at ht; exact ht
      · have h1 := hw v (by rw [hv]; rfl)
        have h2 := hgt v (by rw [hv]; rfl)
        exact absurd h2 (not_lt.mpr h1)
    · rcases hv : coord.h with _ | v
      · rw [hv] at ht; exact ht
      · have h1 := hh v (by rw [hv]; rfl)
        have h2 := hgt v (by rw [hv]; rfl)
        exact absurd h2 (not_lt.mpr h1)
  rcases d with _ | f
  · simp [mapLocalOcrCoordinatesWithAutoCorrection, hno]
  · have hf : f ≤ 1 := hd f rfl
    have : ¬ (f ≠ 0 ∧ f > 1) := by
      rintro ⟨-, h1⟩; exact absurd h1 (not_lt.mpr hf)
    simp [mapLocalOcrCoordinatesWithAutoCorrection, hno, this]

/-- Witness for C4: a box `{x:100,y:60,w:80,h:50}` inside a `300×200` image
with no reported factor is translated unchanged by the selection bounds
`{x:10,y:20}`. -/
theorem mapLocalAutoCorrection_noop_witness :
    mapLocalOcrCoordinatesWithAutoCorrection
      { x := 100, y := 60, w := some 80, h := some 50 }
      { x := 10, y := 20, w := 500, h := 400 }
      { width := 300, height := 200 } none =
      { x := 110, y := 80, w := some 80, h := some 50 } := by
  rw [mapLocalAutoCorrection_noop _ _ _ _ (by simp)
    (by norm_num) (by norm_num) (by norm_num) (by norm_num)]
  simp [mapLocalOcrCoordinates]
  norm_num

/-! ## `src/app/hooks/useHandwritingOCR.ts` — coordinate reconciliation

`validateAndFixGPTCoordinates` (lines 1648–1685) overwrites the bbox and
center of a GPT error annotation with the canonical OCR values whenever the
four bbox fields are not strictly equal (`===`), and the subsequent
error-to-page conversion step inside `processSelectedShapes`
(lines 1137–1195) maps each (now canonical) pixel bbox through
`pixelBoxToPageBox` and recomputes the center as the mapped box's
midpoint.  Numeric fields are `JSNum` so that the `isNaN` guard of the
conversion step and the `===` comparisons keep their JavaScript meaning. -/

/-- A `{x,y,w,h}` bbox of an error annotation or canonical character box. -/
structure ErrBBox where
  x : JSNum
  y : JSNum
  w : JSNum
  h : JSNum
deriving DecidableEq, Repr

/-- A `{x,y}` center point. -/
structure ErrCenter where
  x : JSNum
  y : JSNum
deriving DecidableEq, Repr

/-- A GPT error annotation as consumed by `validateAndFixGPTCoordinates`
and the conversion step (`errorType`, `suggestion` and `explanation` are
the payload fields carried through unchanged by both). -/
structure ErrorAnnot where
  id : String
  bbox : ErrBBox
  center : ErrCenter
  errorType : String
  suggestion : String
  explanation : String
deriving DecidableEq, Repr

/-- A canonical character box produced by `extractCharacterBoxes`
(`tesseractOCR.ts`). -/
structure CharacterBox where
  id : String
  char : String
  bbox : ErrBBox
  center : ErrCenter
  confidence : ℚ
deriving DecidableEq, Repr

/-- `new Map(ocrCharBoxes.map(char => [char.id, char])).get(id)`: a
JavaScript `Map` built from a key/value list keeps the **last** entry for a
duplicated key. -/
def charMapGet (ocrCharBoxes : List CharacterBox) (id : String) : Option CharacterBox :=
  ocrCharBoxes.foldl (fun acc c => if c.id = id then some c else acc) none

/-- The per-annotation body of `validateAndFixGPTCoordinates`. -/
def validateAndFixOne (ocrCharBoxes : List CharacterBox) (error : ErrorAnnot) :
    ErrorAnnot :=
  match charMapGet ocrCharBoxes error.id with
  | none => error
  | some ocrChar =>
      let coordsMatch :=
        JSNum.strictEq error.bbox.x ocrChar.bbox.x &&
        JSNum.strictEq error.bbox.y ocrChar.bbox.y &&
        JSNum.strictEq error.bbox.w ocrChar.bbox.w &&
        JSNum.strictEq error.bbox.h ocrChar.bbox.h
      if coordsMatch then error
      else { error with bbox := ocrChar.bbox, center := ocrChar.center }

/-- Embedding of `validateAndFixGPTCoordinates` (`useHandwritingOCR.ts`,
lines 1648–1685).  The `console.warn` calls are pure side channels
(`UnknownIdWarning` / `CoordinateMismatchWarning`) and are not part of the
returned data. -/
def validateAndFixGPTCoordinates
    (gptErrors : List ErrorAnnot) (ocrCharBoxes : List CharacterBox) :
    List ErrorAnnot :=
  gptErrors.map (validateAndFixOne ocrCharBoxes)

/-- The box object handed to `mapOcrBoxesToPage` by the conversion step:
`{id: error.id, x: error.bbox.x, y: error.bbox.y, w: error.bbox.w,
h: error.bbox.h, char: error.suggestion, ...error}` — the trailing spread
adds the annotation's own `bbox` object (its fields all present), which
`pixelBoxToPageBox` may consult as fallback. -/
def errorToOcrBoxInput (error : ErrorAnnot) : OcrBoxInput :=
  { id := some error.id,
    x := some error.bbox.x,
    y := some error.bbox.y,
    w := some error.bbox.w,
    h := some error.bbox.h,
    bbox := some ⟨some error.bbox.x, some error.bbox.y,
                  some error.bbox.w, some error.bbox.h⟩ }

/-- Embedding of the error-to-page conversion step of
`processSelectedShapes` (`useHandwritingOCR.ts`, lines 1137–1195): map
every annotation's bbox through `mapOcrBoxesToPage`, then — unless the
mapped box contains a `NaN`, in which case the annotation is returned
unmapped — replace `bbox` by the mapped page box and `center` by its
midpoint.  (The source indexes `mappedPageBoxes[index]` inside a `map`;
`zipWith` over the two equally-long lists is the same computation.) -/
def convertErrorsToPage (errors : List ErrorAnnot) (img : DomImageData) :
    List ErrorAnnot :=
  let mappedPageBoxes := mapOcrBoxesToPage (errors.map errorToOcrBoxInput) img
  List.zipWith (fun error mappedBox =>
    if JSNum.isNaN mappedBox.x || JSNum.isNaN mappedBox.y ||
        JSNum.isNaN mappedBox.w || JSNum.isNaN mappedBox.h then error
    else
      { error with
        bbox := ⟨mappedBox.x, mappedBox.y, mappedBox.w, mappedBox.h⟩,
        center := ⟨JSNum.add mappedBox.x (JSNum.div mappedBox.w (.fin 2)),
                   JSNum.add mappedBox.y (JSNum.div mappedBox.h (.fin 2))⟩ })
    errors mappedPageBoxes

/-- The reconciliation pipeline run by `processSelectedShapes` on GPT
errors: coordinate validation/fixing against the canonical boxes, then
page-space conversion. -/
def reconcileErrors (errors : List ErrorAnnot) (canonical : List CharacterBox)
    (img : DomImageData) : List ErrorAnnot :=
  convertErrorsToPage (validateAndFixGPTCoordinates errors canonical) img

/-- `convertErrorsToPage` acts element-wise. -/
theorem convertErrorsToPage_eq_map (errors : List ErrorAnnot) (img : DomImageData) :
    convertErrorsToPage errors img =
      errors.map (fun error =>
        let mappedBox := pixelBoxToPageBox (errorToOcrBoxInput error) img
        if JSNum.isNaN mappedBox.x || JSNum.isNaN mappedBox.y ||
            JSNum.isNaN mappedBox.w || JSNum.isNaN mappedBox.h then error
        else
          { error with
            bbox := ⟨mappedBox.x, mappedBox.y, mappedBox.w, mappedBox.h⟩,
            center := ⟨JSNum.add mappedBox.x (JSNum.div mappedBox.w (.fin 2)),
                       JSNum.add mappedBox.y (JSNum.div mappedBox.h (.fin 2))⟩ }) := by
  induction errors with
  | nil => rfl
  | cons e rest ih =>
      simpa [convertErrorsToPage, mapOcrBoxesToPage] using ih

/-- JavaScript `===` on numbers is sound for equality: if two values
compare strictly equal they are the same value (the converse fails for
`NaN`). -/
theorem JSNum.strictEq_eq {a b : JSNum} (h : JSNum.strictEq a b = true) : a = b := by
  cases a <;> cases b <;> simp_all [JSNum.strictEq]

/-- Whenever the canonical lookup succeeds, `validateAndFixOne` returns an
annotation carrying the canonical bbox and all of the original payload
fields (the center is either the original or the canonical one, and is
overwritten by the conversion step anyway). -/
theorem validateAndFixOne_of_some
    (canonical : List CharacterBox) (e : ErrorAnnot) (c : CharacterBox)
    (hc : charMapGet canonical e.id = some c) :
    ∃ ctr, validateAndFixOne canonical e =
      { id := e.id, bbox := c.bbox, center := ctr, errorType := e.errorType,
        suggestion := e.suggestion, explanation := e.explanation } := by
  unfold validateAndFixOne
  rw [hc]
  by_cases hm :
      (JSNum.strictEq e.bbox.x c.bbox.x &&
       JSNum.strictEq e.bbox.y c.bbox.y &&
       JSNum.strictEq e.bbox.w c.bbox.w &&
       JSNum.strictEq e.bbox.h c.bbox.h) = true
  · refine ⟨e.center, ?_⟩
    simp only [hm, if_true]
    rw [Bool.and_eq_true, Bool.and_eq_true, Bool.and_eq_true] at hm
    obtain ⟨⟨⟨h1, h2⟩, h3⟩, h4⟩ := hm
    have hbb : e.bbox = c.bbox := by
      have e1 := JSNum.strictEq_eq h1
      have e2 := JSNum.strictEq_eq h2
      have e3 := JSNum.strictEq_eq h3
      have e4 := JSNum.strictEq_eq h4
      calc e.bbox = ⟨e.bbox.x, e.bbox.y, e.bbox.w, e.bbox.h⟩ := rfl
        _ = ⟨c.bbox.x, c.bbox.y, c.bbox.w, c.bbox.h⟩ := by rw [e1, e2, e3, e4]
        _ = c.bbox := rfl
    cases e
    simp_all
  · refine ⟨c.center, ?_⟩
    simp only [Bool.not_eq_true] at hm
    simp [hm]

/-- The canonical box of a character, presented as an input object for
`pixelBoxToPageBox` — `mapToPage(canonical[id], geometry)` in the spec's
vocabulary. -/
def canonicalBoxInput (c : CharacterBox) : OcrBoxInput :=
  { id := some c.id,
    x := some c.bbox.x,
    y := some c.bbox.y,
    w := some c.bbox.w,
    h := some c.bbox.h,
    bbox := some ⟨some c.bbox.x, some c.bbox.y, some c.bbox.w, some c.bbox.h⟩ }

/-- The page-space mapping of a canonical character box under a capture
geometry. -/
def canonicalPageBox (c : CharacterBox) (img : DomImageData) : PageBox :=
  pixelBoxToPageBox (canonicalBoxInput c) img

/-! ### Claims C5, C6 about reconciliation -/

/-- C5: reconciliation fidelity.  For every error annotation whose id
matches a canonical OCR character box (with finite coordinates, under a
finite geometry with positive natural dimensions), the reconciled
annotation keeps its payload but its bbox equals the page-space mapping of
that canonical box and its center is recomputed as that box's midpoint —
regardless of the bbox and center the annotation originally carried. -/
theorem reconcile_fidelity
    (errors : List ErrorAnnot) (canonical : List CharacterBox) (img : DomImageData)
    (rx ry rw rh nw nh cx cy cw ch : ℚ)
    (hrx : img.rectX = .fin rx) (hry : img.rectY = .fin ry)
    (hrw : img.rectWidth = .fin rw) (hrh : img.rectHeight = .fin rh)
    (hnw : img.naturalWidth = .fin nw) (hnh : img.naturalHeight = .fin nh)
    (hnwpos : 0 < nw) (hnhpos : 0 < nh)
    (i : ℕ) (e : ErrorAnnot) (c : CharacterBox)
    (he : errors[i]? = some e)
    (hc : charMapGet canonical e.id = some c)
    (hcb : c.bbox = ⟨.fin cx, .fin cy, .fin cw, .fin ch⟩) :
    (reconcileErrors errors canonical img)[i]? = some
      { e with
        bbox := ⟨(canonicalPageBox c img).x, (canonicalPageBox c img).y,
                 (canonicalPageBox c img).w, (canonicalPageBox c img).h⟩,
        center := ⟨JSNum.add (canonicalPageBox c img).x
                     (JSNum.div (canonicalPageBox c img).w (.fin 2)),
                   JSNum.add (canonicalPageBox c img).y
                     (JSNum.div (canonicalPageBox c img).h (.fin 2))⟩ } := by
  obtain ⟨ctr, hfix⟩ := validateAndFixOne_of_some canonical e c hc
  have hcan : canonicalPageBox c img =
      { id := some c.id,
        x := .fin (rx + cx * (rw / nw)),
        y := .fin (ry + cy * (rh / nh)),
        w := .fin ((rx + (cx + cw) * (rw / nw)) - (rx + cx * (rw / nw))),
        h := .fin ((ry + (cy + ch) * (rh / nh)) - (ry + cy * (rh / nh))) } :=
    pixelBoxToPageBox_of_fin _ _ cx cy cw ch rx ry rw rh nw nh
      (by simp [canonicalBoxInput, hcb]) (by simp [canonicalBoxInput, hcb])
      (by simp [canonicalBoxInput, hcb]) (by simp [canonicalBoxInput, hcb])
      hrx hry hrw hrh hnw hnh hnwpos hnhpos
  have hmap : pixelBoxToPageBox (errorToOcrBoxInput
      { id := e.id, bbox := c.bbox, center := ctr, errorType := e.errorType,
        suggestion := e.suggestion, explanation := e.explanation }) img =
      { id := some e.id,
        x := .fin (rx + cx * (rw / nw)),
        y := .fin (ry + cy * (rh / nh)),
        w := .fin ((rx + (cx + cw) * (rw / nw)) - (rx + cx * (rw / nw))),
        h := .fin ((ry + (cy + ch) * (rh / nh)) - (ry + cy * (rh / nh))) } :=
    pixelBoxToPageBox_of_fin _ _ cx cy cw ch rx ry rw rh nw nh
      (by simp [errorToOcrBoxInput, hcb]) (by simp [errorToOcrBoxInput, hcb])
      (by simp [errorToOcrBoxInput, hcb]) (by simp [errorToOcrBoxInput, hcb])
      hrx hry hrw hrh hnw hnh hnwpos hnhpos
  unfold reconcileErrors validateAndFixGPTCoordinates
  rw [convertErrorsToPage_eq_map, List.map_map, List.getElem?_map, he]
  simp only [Option.map_some', Function.comp_apply, hfix, hmap, hcan,
    JSNum.isNaN, Bool.or_self, Bool.false_or, if_neg, Bool.or_false]
  rfl

/-- Witness for C5: one error annotation with a hallucinated bbox and a
matching canonical box `{90,45,30,45}` under the spec-example geometry is
reconciled to the page box `{130,215,10,15}` with midpoint center
`(135, 222.5)`. -/
theorem reconcile_fidelity_witness :
    (reconcileErrors
      [{ id := "c001", bbox := ⟨.fin 1, .fin 2, .fin 3, .fin 4⟩,
         center := ⟨.fin 0, .fin 0⟩, errorType := "calculation_error",
         suggestion := "7", explanation := "wrong digit" }]
      [{ id := "c001", char := "1", bbox := ⟨.fin 90, .fin 45, .fin 30, .fin 45⟩,
         center := ⟨.fin 105, .fin 68⟩, confidence := 1 }]
      { rectX := .fin 100, rectY := .fin 200, rectWidth := .fin 300,
        rectHeight := .fin 150, naturalWidth := .fin 900, naturalHeight := .fin 450 })[0]?
      = some
      { id := "c001", bbox := ⟨.fin 130, .fin 215, .fin 10, .fin 15⟩,
        center := ⟨.fin 135, .fin (445 / 2)⟩, errorType := "calculation_error",
        suggestion := "7", explanation := "wrong digit" } := by
  have h := reconcile_fidelity
    [{ id := "c001", bbox := ⟨.fin 1, .fin 2, .fin 3, .fin 4⟩,
       center := ⟨.fin 0, .fin 0⟩, errorType := "calculation_error",
       suggestion := "7", explanation := "wrong digit" }]
    [{ id := "c001", char := "1", bbox := ⟨.fin 90, .fin 45, .fin 30, .fin 45⟩,
       center := ⟨.fin 105, .fin 68⟩, confidence := 1 }]
    { rectX := .fin 100, rectY := .fin 200, rectWidth := .fin 300,
      rectHeight := .fin 150, naturalWidth := .fin 900, naturalHeight := .fin 450 }
    100 200 300 150 900 450 90 45 30 45
    rfl rfl rfl rfl rfl rfl (by norm_num) (by norm_num)
    0
    { id := "c001", bbox := ⟨.fin 1, .fin 2, .fin 3, .fin 4⟩,
      center := ⟨.fin 0, .fin 0⟩, errorType := "calculation_error",
      suggestion := "7", explanation := "wrong digit" }
    { id := "c001", char := "1", bbox := ⟨.fin 90, .fin 45, .fin 30, .fin 45⟩,
      center := ⟨.fin 105, .fin 68⟩, confidence := 1 }
    rfl rfl rfl
  rw [h]
  have hcan := pixelBoxToPageBox_of_fin
    (canonicalBoxInput
      { id := "c001", char := "1", bbox := ⟨.fin 90, .fin 45, .fin 30, .fin 45⟩,
        center := ⟨.fin 105, .fin 68⟩, confidence := 1 })
    { rectX := .fin 100, rectY := .fin 200, rectWidth := .fin 300,
      rectHeight := .fin 150, naturalWidth := .fin 900, naturalHeight := .fin 450 }
    90 45 30 45 100 200 300 150 900 450
    rfl rfl rfl rfl rfl rfl rfl rfl rfl rfl (by norm_num) (by norm_num)
  simp only [canonicalPageBox, hcan]
  norm_num [JSNum.add, JSNum.div]

/-- C6: `validateAndFixGPTCoordinates` returns a list of the same length
and order as its input (it never drops an annotation), and an annotation
whose id is absent from the canonical boxes is returned unchanged — no
coordinates are invented for it.  (The source additionally emits a
`console.warn` flagging such an annotation as unverified; that warning is a
log side channel, not part of the returned data.) -/
theorem validateAndFix_passthrough
    (gptErrors : List ErrorAnnot) (ocrCharBoxes : List CharacterBox) :
    (validateAndFixGPTCoordinates gptErrors ocrCharBoxes).length = gptErrors.length ∧
    ∀ i : ℕ, ∀ e : ErrorAnnot, gptErrors[i]? = some e →
      charMapGet ocrCharBoxes e.id = none →
      (validateAndFixGPTCoordinates gptErrors ocrCharBoxes)[i]? = some e := by
  constructor
  · simp [validateAndFixGPTCoordinates]
  · intro i e he hnone
    unfold validateAndFixGPTCoordinates
    rw [List.getElem?_map, he]
    simp [validateAndFixOne, hnone]

/-- Witness for C6: an annotation with id `"c999"` not present among the
canonical boxes passes through reconciliation validation unchanged, and the
output list has the input's length. -/
theorem validateAndFix_passthrough_witness :
    (validateAndFixGPTCoordinates
      [{ id := "c999", bbox := ⟨.fin 1, .fin 2, .fin 3, .fin 4⟩,
         center := ⟨.fin 5, .fin 6⟩, errorType := "spelling_error",
         suggestion := "a", explanation := "unknown" }]
      [{ id := "c001", char := "1", bbox := ⟨.fin 90, .fin 45, .fin 30, .fin 45⟩,
         center := ⟨.fin 105, .fin 68⟩, confidence := 1 }]).length = 1 ∧
    (validateAndFixGPTCoordinates
      [{ id := "c999", bbox := ⟨.fin 1, .fin 2, .fin 3, .fin 4⟩,
         center := ⟨.fin 5, .fin 6⟩, errorType := "spelling_error",
         suggestion := "a", explanation := "unknown" }]
      [{ id := "c001", char := "1", bbox := ⟨.fin 90, .fin 45, .fin 30, .fin 45⟩,
         center := ⟨.fin 105, .fin 68⟩, confidence := 1 }])[0]? = some
      { id := "c999", bbox := ⟨.fin 1, .fin 2, .fin 3, .fin 4⟩,
        center := ⟨.fin 5, .fin 6⟩, errorType := "spelling_error",
        suggestion := "a", explanation := "unknown" } := by
  have h := validateAndFix_passthrough
    [{ id := "c999", bbox := ⟨.fin 1, .fin 2, .fin 3, .fin 4⟩,
       center := ⟨.fin 5, .fin 6⟩, errorType := "spelling_error",
       suggestion := "a", explanation := "unknown" }]
    [{ id := "c001", char := "1", bbox := ⟨.fin 90, .fin 45, .fin 30, .fin 45⟩,
       center := ⟨.fin 105, .fin 68⟩, confidence := 1 }]
  exact ⟨h.1, h.2 0 _ rfl rfl⟩

/-! ## `src/app/hooks/useHandwritingOCR.ts` — two-phase capture state machine

`initializeOCR` (lines 634–795) and `processSelectedShapes` (lines
799–1437) run inside a React hook; we embed them as state-transition
functions over the hook's `OCRState` record, with the external
collaborators (the tldraw editor's selection and rasterisation, blob
decoding, image-element loading and the OCR engine) supplied as an
explicit environment of oracles.  Toasts, debug-log `fetch`es, `console`
output, file persistence, error analysis, smart-suggestion layout, TTS and
DOM styling are side channels whose failures the source catches locally;
they do not affect the fields and results modelled here.  Canvases are
opaque handles with pixel dimensions; wall-clock `processingTime` is not
modelled. -/

/-- An `HTMLCanvasElement` as seen by the pipeline: an identity (so that
"the raster captured during initialization" is distinguishable from a
re-rasterisation) plus its pixel dimensions. -/
structure CanvasHandle where
  cid : ℕ
  width : ℚ
  height : ℚ
deriving DecidableEq, Repr

/-- `OCRState.initializationData`: the data stored by a successful
first-phase run (its fields are always populated together, which is why
the source's `初始化数据不完整` re-check can never fire in the model). -/
structure InitializationData where
  selectionBounds : BoundingBox
  shapeIds : List String
  imageCanvas : CanvasHandle
deriving DecidableEq, Repr

/-- `OCRResult.metadata` (the fields the state machine reads/writes). -/
structure OCRMetadata where
  imageWidth : ℚ
  imageHeight : ℚ
  detectedInternalScaleFactor : ℚ
deriving DecidableEq, Repr

/-- An OCR engine result as consumed by phase two. -/
structure OCRResultModel where
  fullText : String
  charBoxes : List CharacterBox
  metadata : OCRMetadata
deriving DecidableEq, Repr

/-- The fields of the hook's `OCRState` record that `initializeOCR` and
`processSelectedShapes` read or write (the suggestion/TTS bookkeeping
fields, reset to their initial values at the start of both phases, are
outside the claims and omitted). -/
structure OCRHookState where
  isProcessing : Bool
  progress : ℚ
  currentStep : String
  lastResult : Option OCRResultModel
  isInitialized : Bool
  initializationData : Option InitializationData
  error : Option String
deriving DecidableEq, Repr

/-- The environment of external collaborators consulted by the two
phases. -/
structure CaptureEnv where
  /-- `editor.getSelectedShapeIds()`. -/
  selectedShapeIds : List String
  /-- `editor.getSelectionPageBounds()` (`none` = unavailable). -/
  selectionPageBounds : Option BoundingBox
  /-- `editor.toImage(...)`: the rasterised blob (`none` = null blob). -/
  toImageBlob : Option ℕ
  /-- `blobToCanvas`: decoding a blob into a canvas. -/
  blobToCanvas : ℕ → CanvasHandle
  /-- Whether the proxy image element load succeeds (`img.onload` vs
  `img.onerror`). -/
  imageLoadOk : Bool
  /-- `preprocessImage(originalCanvas, defaultPreprocessingOptions)`. -/
  preprocessImage : CanvasHandle → CanvasHandle
  /-- `processImageOCR(originalCanvas, preprocessedCanvas)`: the OCR
  engine; `Except.error` models a thrown recognition error. -/
  processImageOCR : CanvasHandle → CanvasHandle → Except String OCRResultModel

/-- `initializeOCR`'s return value `{ success, message }`. -/
structure InitResult where
  success : Bool
  message : String
deriving DecidableEq, Repr

/-- `processSelectedShapes`' return value
`{ success, result?, error? }` (`processingTime` not modelled). -/
structure OCRProcessingResult where
  success : Bool
  result : Option OCRResultModel
  error : Option String
deriving DecidableEq, Repr

/-- The catch-block of `initializeOCR`: stop processing, record the error
message, clear the two-phase state, and return failure. -/
def initFail (st : OCRHookState) (msg : String) : OCRHookState × InitResult :=
  ({ st with isProcessing := false, error := some msg,
             isInitialized := false, initializationData := none },
   { success := false, message := msg })

/-- Embedding of `initializeOCR` (`useHandwritingOCR.ts`, lines 634–795):
phase one.  Marks the state as processing, checks for a selection, obtains
its page bounds, rasterises it, converts the blob to a canvas, waits for
the proxy image element to load, then stores `initializationData` and
flips `isInitialized`.  Any failure takes the catch branch `initFail` with
the thrown message. -/
def initializeOCR (st : OCRHookState) (env : CaptureEnv) : OCRHookState × InitResult :=
  let st := { st with isProcessing := true, progress := 0,
                      currentStep := "Initializing OCR environment...", error := none }
  if env.selectedShapeIds.isEmpty then
    initFail st "请先选择要识别的手写内容区域"
  else
    match env.selectionPageBounds with
    | none => initFail st "无法获取选中区域边界"
    | some selectionBounds =>
      let st := { st with progress := 30, currentStep := "Capturing image data..." }
      match env.toImageBlob with
      | none => initFail st "无法截取画布图像"
      | some blob =>
        let st := { st with progress := 60, currentStep := "Converting to canvas..." }
        let imageCanvas := env.blobToCanvas blob
        let st := { st with progress := 90, currentStep := "Setting up image elements..." }
        if ¬ env.imageLoadOk then
          initFail st "图片加载失败"
        else
          ({ st with progress := 100, currentStep := "Initialization completed",
                     isInitialized := true,
                     initializationData :=
                       some { selectionBounds := selectionBounds,
                              shapeIds := env.selectedShapeIds,
                              imageCanvas := imageCanvas },
                     isProcessing := false },
           { success := true, message := "OCR环境初始化成功，请再次点击进行识别" })

/-- Embedding of `processSelectedShapes` (`useHandwritingOCR.ts`, lines
799–1437): the "recognize" entry point of the two-phase protocol.  When the
session is uninitialised (`!ocrState.isInitialized ||
!ocrState.initializationData`) it only runs `initializeOCR` and returns a
result object with `result: undefined`; otherwise it runs phase two
against the canvas stored in `initializationData` (no new rasterisation:
the `toImageBlob` oracle is not consulted), fixes the result's metadata to
the stored canvas dimensions, and returns a success object carrying the
recognition result. -/
def processSelectedShapes (st : OCRHookState) (env : CaptureEnv) :
    OCRHookState × OCRProcessingResult :=
  match st.initializationData, st.isInitialized with
  | some d, true =>
    let st := { st with isProcessing := true, progress := 0,
                        currentStep := "Starting OCR recognition...", error := none }
    let originalCanvas := d.imageCanvas
    let width := originalCanvas.width
    let height := originalCanvas.height
    let st := { st with progress := 50,
                        currentStep := "Performing OCR recognition..." }
    let preprocessedCanvas := env.preprocessImage originalCanvas
    match env.processImageOCR originalCanvas preprocessedCanvas with
    | .error e =>
        ({ st with isProcessing := false, error := some e },
         { success := false, result := none, error := some e })
    | .ok ocrResult0 =>
        let ocrResult :=
          { ocrResult0 with
            metadata := { ocrResult0.metadata with
                          imageWidth := width, imageHeight := height } }
        let st := { st with progress := 100, currentStep := "Processing completed",
                            lastResult := some ocrResult, isProcessing := false }
        (st, { success := true, result := some ocrResult, error := none })
  | _, _ =>
    let (st', initResult) := initializeOCR st env
    (st', { success := initResult.success,
            result := none,
            error := if initResult.success then none else some initResult.message })

/-! The only exclusion against re-entrant invocation in the repository is
in the UI layer: the buttons of `HandwritingButton.tsx` that invoke
`processSelectedShapes` carry `disabled={isProcessing}`, so no click
handler fires while a phase is processing.  The hook entry points
themselves never read `isProcessing` before running, which claim C8 is
about. -/

/-! ### Claims C7, C8 about the two-phase protocol -/

/-- C7: the two-phase protocol of the recognize entry point.
(1) Called on an uninitialised session, `processSelectedShapes` returns a
result object carrying no recognition result, and — when the environment
lets initialization succeed — performs exactly the initialization
transition, storing the captured raster and selection bounds and marking
the session initialized.
(2) Called on an initialized session, it runs the OCR engine against the
canvas captured during initialization and returns a success object carrying
the recognition result (metadata fixed to the stored canvas dimensions).
(3) Phase two performs no new rasterisation: its outcome is unchanged
under any modification of the selection/rasterisation oracles, as long as
the preprocessing and OCR oracles agree. -/
theorem twoPhaseProtocol :
    (∀ (st : OCRHookState) (env : CaptureEnv),
      (st.isInitialized = false ∨ st.initializationData = none) →
      (processSelectedShapes st env).2.result = none ∧
      (env.selectedShapeIds.isEmpty = false →
       ∀ sb, env.selectionPageBounds = some sb →
       ∀ blob, env.toImageBlob = some blob →
       env.imageLoadOk = true →
        (processSelectedShapes st env).1.isInitialized = true ∧
        (processSelectedShapes st env).1.initializationData =
          some { selectionBounds := sb, shapeIds := env.selectedShapeIds,
                 imageCanvas := env.blobToCanvas blob } ∧
        (processSelectedShapes st env).2.success = true)) ∧
    (∀ (st : OCRHookState) (env : CaptureEnv) (d : InitializationData)
       (r : OCRResultModel),
      st.isInitialized = true → st.initializationData = some d →
      env.processImageOCR d.imageCanvas (env.preprocessImage d.imageCanvas) =
        .ok r →
      (processSelectedShapes st env).2.success = true ∧
      (processSelectedShapes st env).2.result = some
        { r with metadata :=
            { r.metadata with imageWidth := d.imageCanvas.width,
                              imageHeight := d.imageCanvas.height } }) ∧
    (∀ (st : OCRHookState) (env env' : CaptureEnv) (d : InitializationData),
      st.isInitialized = true → st.initializationData = some d →
      env.preprocessImage = env'.preprocessImage →
      env.processImageOCR = env'.processImageOCR →
      processSelectedShapes st env = processSelectedShapes st env') := by
  refine ⟨?_, ?_, ?_⟩
  · intro st env h
    have hcase : (processSelectedShapes st env) =
        (let (st', initResult) := initializeOCR st env
         (st', { success := initResult.success,
                 result := none,
                 error := if initResult.success then none
                          else some initResult.message })) := by
      rcases h with h | h
      · cases hd : st.initializationData <;>
          simp [processSelectedShapes, h, hd]
      · simp [processSelectedShapes, h]
    constructor
    · rw [hcase]
    · intro hsel sb hsb blob hblob hload
      rw [hcase]
      simp only [initializeOCR, hsel, hsb, hblob, hload,
        Bool.false_eq_true, if_false, not_true_eq_false]
      exact ⟨trivial, trivial, trivial⟩
  · intro st env d r hinit hd hocr
    simp only [processSelectedShapes, hd, hinit, hocr]
    exact ⟨trivial, trivial⟩
  · intro st env env' d hinit hd hpre hocr
    simp only [processSelectedShapes, hd, hinit, hpre, hocr]

/-- A sample environment in which all collaborators succeed. -/
def sampleCaptureEnv : CaptureEnv :=
  { selectedShapeIds := ["shape1"],
    selectionPageBounds := some ⟨20, 30, 100, 50⟩,
    toImageBlob := some 7,
    blobToCanvas := fun b => ⟨b, 100, 50⟩,
    imageLoadOk := true,
    preprocessImage := fun c => ⟨c.cid + 1000, c.width, c.height⟩,
    processImageOCR := fun c _ =>
      .ok { fullText := "2x3",
            charBoxes := [],
            metadata := { imageWidth := c.width, imageHeight := c.height,
                          detectedInternalScaleFactor := 1 } } }

/-- The idle hook state (all fields at their initial values). -/
def idleHookState : OCRHookState :=
  { isProcessing := false, progress := 0, currentStep := "",
    lastResult := none, isInitialized := false,
    initializationData := none, error := none }

/-- The initialization data produced by `sampleCaptureEnv`. -/
def sampleInitData : InitializationData :=
  { selectionBounds := ⟨20, 30, 100, 50⟩, shapeIds := ["shape1"],
    imageCanvas := ⟨7, 100, 50⟩ }

/-- An initialized hook state holding `sampleInitData`. -/
def initializedHookState : OCRHookState :=
  { idleHookState with isInitialized := true,
                       initializationData := some sampleInitData }

/-- Witness for C7: in the sample environment, the first call (idle state)
returns no recognition result and initializes the session with the sample
raster, and the second call (initialized state) succeeds with the OCR
result for that raster. -/
theorem twoPhaseProtocol_witness :
    (processSelectedShapes idleHookState sampleCaptureEnv).2.result = none ∧
    (processSelectedShapes idleHookState sampleCaptureEnv).1.isInitialized = true ∧
    (processSelectedShapes idleHookState sampleCaptureEnv).1.initializationData =
      some sampleInitData ∧
    (processSelectedShapes initializedHookState sampleCaptureEnv).2.success = true ∧
    (processSelectedShapes initializedHookState sampleCaptureEnv).2.result = some
      { fullText := "2x3", charBoxes := [],
        metadata := { imageWidth := 100, imageHeight := 50,
                      detectedInternalScaleFactor := 1 } } := by
  have h1 := twoPhaseProtocol.1 idleHookState sampleCaptureEnv (Or.inl rfl)
  have h2 := h1.2 rfl ⟨20, 30, 100, 50⟩ rfl 7 rfl rfl
  have h3 := twoPhaseProtocol.2.1 initializedHookState sampleCaptureEnv
    sampleInitData
    { fullText := "2x3", charBoxes := [],
      metadata := { imageWidth := 100, imageHeight := 50,
                    detectedInternalScaleFactor := 1 } }
    rfl rfl rfl
  exact ⟨h1.1, h2.1, h2.2.1, h3.1, h3.2⟩

/-- C8 (counterexample): invoking the entry points while a phase is
already processing is **not** a no-op.  With `isProcessing = true` on an
uninitialised state, `processSelectedShapes` still performs the full
initialization (the session becomes initialized and the call reports
success), and `initializeOCR` likewise proceeds; neither entry point
rejects the call. -/
theorem reentrancyGuard_counterexample :
    ({ idleHookState with isProcessing := true } : OCRHookState).isInitialized
        = false ∧
    (processSelectedShapes { idleHookState with isProcessing := true }
        sampleCaptureEnv).1.isInitialized = true ∧
    (processSelectedShapes { idleHookState with isProcessing := true }
        sampleCaptureEnv).2.success = true ∧
    (initializeOCR { idleHookState with isProcessing := true }
        sampleCaptureEnv).1.isInitialized = true ∧
    (initializeOCR { idleHookState with isProcessing := true }
        sampleCaptureEnv).2.success = true :=
  ⟨rfl, rfl, rfl, rfl, rfl⟩

/-- C8 (amended): the hook entry points contain no re-entrancy guard at
all — their behaviour is entirely independent of the `isProcessing` flag,
so a direct call while a phase is in flight proceeds exactly as a call at
rest (it is neither rejected nor queued).  The only exclusion in the
repository is the UI layer's `disabled={isProcessing}` on the buttons that
invoke these entry points. -/
theorem reentrancyGuard_amended :
    (∀ (st : OCRHookState) (env : CaptureEnv) (b : Bool),
      initializeOCR { st with isProcessing := b } env = initializeOCR st env) ∧
    (∀ (st : OCRHookState) (env : CaptureEnv) (b : Bool),
      processSelectedShapes { st with isProcessing := b } env =
        processSelectedShapes st env) := by
  constructor
  · intro st env b
    cases st
    rfl
  · intro st env b
    cases st
    rfl

/-! ## `src/app/lib/smartPositioning.ts` — spatial placement engine

Coordinates are exact rationals.  The only non-rational operation of the
source, `Math.sqrt` inside `calculateDistanceBonus`, is used solely in
comparisons against the non-negative constants 100/150, 80/200, 60/250;
comparing the squared distance against their squares is exactly
equivalent, so the embedding does that. -/

/-- A 2-D point `{x, y}`. -/
structure Point where
  x : ℚ
  y : ℚ
deriving DecidableEq, Repr

/-- The `cardSize` parameter `{ width, height }` (the source's default is
`{180, 120}`; the embedding always passes it explicitly). -/
structure CardSize where
  width : ℚ
  height : ℚ
deriving DecidableEq, Repr

/-- `PositionCandidate` from `smartPositioning.ts`. -/
structure PositionCandidate where
  x : ℚ
  y : ℚ
  score : ℚ
  direction : String
  avoidedShapes : ℕ
  distanceToError : ℚ
deriving DecidableEq, Repr

/-- `SpatialGrid` from `smartPositioning.ts` (density and occupancy by
row, then column). -/
structure SpatialGrid where
  width : ℕ
  height : ℕ
  cellSize : ℚ
  density : List (List ℚ)
  occupied : List (List Bool)
deriving DecidableEq, Repr

/-- `SuggestionPlacement` from `smartPositioning.ts`. -/
structure SuggestionPlacement where
  x : ℚ
  y : ℚ
  width : ℚ
  height : ℚ
  leadLineStart : Point
  leadLineEnd : Point
  animationDelay : ℚ
deriving DecidableEq, Repr

/-- The part of a `HandwritingError` consumed by
`optimizeMultipleErrorLayout` (only `error.bbox` is read). -/
structure HandwritingErrorInput where
  bbox : BoundingBox
deriving DecidableEq, Repr

/-- The integers of a JavaScript loop `for (i = lo; i <= hi; i++)`. -/
def intRange (lo hi : ℤ) : List ℤ :=
  (List.range (hi + 1 - lo).toNat).map (fun k => lo + (k : ℤ))

/-- `grid.density[row][col]` (both indices kept in range by the loop
bounds of the callers; out-of-range reads default to `0`). -/
def densityAt (grid : SpatialGrid) (row col : ℤ) : ℚ :=
  (grid.density.getD row.toNat []).getD col.toNat 0

/-- Embedding of `calculateDensityPenalty`: the mean density of the grid
cells covered by the card, scaled by 25. -/
def calculateDensityPenalty (position : Point) (cardSize : CardSize)
    (viewportBounds : BoundingBox) (grid : SpatialGrid) : ℚ :=
  let cellWidth := viewportBounds.w / (grid.width : ℚ)
  let cellHeight := viewportBounds.h / (grid.height : ℚ)
  let startCol := ⌊(position.x - viewportBounds.x) / cellWidth⌋
  let endCol := ⌊(position.x + cardSize.width - viewportBounds.x) / cellWidth⌋
  let startRow := ⌊(position.y - viewportBounds.y) / cellHeight⌋
  let endRow := ⌊(position.y + cardSize.height - viewportBounds.y) / cellHeight⌋
  let cells :=
    (intRange (max 0 startRow) (min ((grid.height : ℤ) - 1) endRow)).flatMap
      (fun row =>
        (intRange (max 0 startCol) (min ((grid.width : ℤ) - 1) endCol)).map
          (fun col => (row, col)))
  let totalDensity := (cells.map (fun rc => densityAt grid rc.1 rc.2)).sum
  let cellCount : ℕ := cells.length
  if 0 < cellCount then (totalDensity / (cellCount : ℚ)) * 25 else 0

/-- Embedding of `calculateBoundaryBonus`: distance to the nearest
viewport edge, best between 40 and 80. -/
def calculateBoundaryBonus (position : Point) (cardSize : CardSize)
    (viewportBounds : BoundingBox) : ℚ :=
  let minDistanceToEdge :=
    min (min (position.x - viewportBounds.x) (position.y - viewportBounds.y))
        (min (viewportBounds.x + viewportBounds.w - (position.x + cardSize.width))
             (viewportBounds.y + viewportBounds.h - (position.y + cardSize.height)))
  if 40 ≤ minDistanceToEdge ∧ minDistanceToEdge ≤ 80 then 1
  else if 20 ≤ minDistanceToEdge ∧ minDistanceToEdge ≤ 120 then 1 / 2
  else 0

/-- Embedding of `calculateDistanceBonus`: the source compares
`Math.sqrt(distSq)` against 100/150, 80/200, 60/250; squaring both sides
of each comparison is exact. -/
def calculateDistanceBonus (position errorPosition : Point) : ℚ :=
  let distSq := (position.x - errorPosition.x) ^ 2 +
                (position.y - errorPosition.y) ^ 2
  if 10000 ≤ distSq ∧ distSq ≤ 22500 then 1
  else if 6400 ≤ distSq ∧ distSq ≤ 40000 then 3 / 5
  else if 3600 ≤ distSq ∧ distSq ≤ 62500 then 3 / 10
  else 0

/-- Embedding of `calculateDirectionBonus`: up-right preferred, then
down-right, straight right, up-left, anything else. -/
def calculateDirectionBonus (position errorPosition : Point) : ℚ :=
  let dx := position.x - errorPosition.x
  let dy := position.y - errorPosition.y
  if dx > 0 ∧ dy < 0 then 1
  else if dx > 0 ∧ dy > 0 then 4 / 5
  else if dx > 0 ∧ |dy| < 20 then 3 / 5
  else if dx < 0 ∧ dy < 0 then 2 / 5
  else 1 / 5

/-- Embedding of `calculatePositionScore`: 100 base, minus 40× the density
penalty, plus 20×/25×/15× the boundary, distance and direction bonuses,
clamped at 0. -/
def calculatePositionScore (position : Point) (cardSize : CardSize)
    (errorPosition : Point) (viewportBounds : BoundingBox)
    (grid : SpatialGrid) : ℚ :=
  max 0 (100
    - calculateDensityPenalty position cardSize viewportBounds grid * 40
    + calculateBoundaryBonus position cardSize viewportBounds * 20
    + calculateDistanceBonus position errorPosition * 25
    + calculateDirectionBonus position errorPosition * 15)

/-- The eight compass directions of `generatePositionCandidates`, in
source order. -/
def directions : List (String × ℚ × ℚ) :=
  [("N", 0, -1), ("NE", 1, -1), ("E", 1, 0), ("SE", 1, 1),
   ("S", 0, 1), ("SW", -1, 1), ("W", -1, 0), ("NW", -1, -1)]

/-- `DISTANCE_OPTIONS`. -/
def distanceOptions : List ℚ := [80, 120, 160, 200]

/-- Embedding of `generatePositionCandidates`: 8 directions × 4 radii,
kept only when the card fits inside the viewport, scored, then sorted by
descending score.  `Array.prototype.sort` with the comparator
`(a, b) => b.score - a.score` is a stable descending sort by score;
insertion sort with the reflexive relation `b.score ≤ a.score` is exactly
such a sort. -/
def generatePositionCandidates (errorPosition : Point) (cardSize : CardSize)
    (viewportBounds : BoundingBox) (grid : SpatialGrid) :
    List PositionCandidate :=
  let candidates := directions.flatMap (fun dir =>
    distanceOptions.filterMap (fun distance =>
      let candidateX := errorPosition.x + dir.2.1 * distance
      let candidateY := errorPosition.y + dir.2.2 * distance
      if candidateX ≥ viewportBounds.x ∧
         candidateX + cardSize.width ≤ viewportBounds.x + viewportBounds.w ∧
         candidateY ≥ viewportBounds.y ∧
         candidateY + cardSize.height ≤ viewportBounds.y + viewportBounds.h then
        some { x := candidateX, y := candidateY,
               score := calculatePositionScore ⟨candidateX, candidateY⟩
                 cardSize errorPosition viewportBounds grid,
               direction := dir.1, avoidedShapes := 0,
               distanceToError := distance }
      else none))
  candidates.insertionSort (fun a b => b.score ≤ a.score)

/-- The overlap test of the candidate filter in
`optimizeMultipleErrorLayout`: a candidate's card rectangle against an
occupied (buffered) rectangle; touching edges do not count as overlap. -/
def overlapsUsed (candX candY : ℚ) (cardSize : CardSize)
    (used : BoundingBox) : Bool :=
  ! (decide (candX ≥ used.x + used.w) ||
     decide (candX + cardSize.width ≤ used.x) ||
     decide (candY ≥ used.y + used.h) ||
     decide (candY + cardSize.height ≤ used.y))

/-- The `errors.forEach` loop of `optimizeMultipleErrorLayout`, carrying
the accumulated `placements` and `usedPositions` arrays and the loop
index (for `animationDelay`). -/
def optimizeLoop (viewportBounds : BoundingBox) (grid : SpatialGrid)
    (cardSize : CardSize) :
    List HandwritingErrorInput → ℕ → List SuggestionPlacement →
      List BoundingBox → List SuggestionPlacement
  | [], _, placements, _ => placements
  | error :: rest, index, placements, usedPositions =>
    let errorCenter : Point :=
      ⟨error.bbox.x + error.bbox.w / 2, error.bbox.y + error.bbox.h / 2⟩
    let candidates :=
      generatePositionCandidates errorCenter cardSize viewportBounds grid
    let candidates := candidates.filter (fun candidate =>
      ! usedPositions.any (fun used =>
          overlapsUsed candidate.x candidate.y cardSize used))
    match candidates with
    | bestPosition :: _ =>
        optimizeLoop viewportBounds grid cardSize rest (index + 1)
          (placements ++
            [{ x := bestPosition.x, y := bestPosition.y,
               width := cardSize.width, height := cardSize.height,
               leadLineStart := errorCenter,
               leadLineEnd := ⟨bestPosition.x + cardSize.width / 2,
                               bestPosition.y + cardSize.height / 2⟩,
               animationDelay := (index : ℚ) * 800 }])
          (usedPositions ++
            [⟨bestPosition.x - 20, bestPosition.y - 20,
              cardSize.width + 40, cardSize.height + 40⟩])
    | [] =>
        let fallbackX := errorCenter.x + 100
        let fallbackY := errorCenter.y - cardSize.height / 2
        optimizeLoop viewportBounds grid cardSize rest (index + 1)
          (placements ++
            [{ x := fallbackX, y := fallbackY,
               width := cardSize.width, height := cardSize.height,
               leadLineStart := errorCenter,
               leadLineEnd := ⟨fallbackX + cardSize.width / 2,
                               fallbackY + cardSize.height / 2⟩,
               animationDelay := (index : ℚ) * 800 }])
          usedPositions

/-- Embedding of `optimizeMultipleErrorLayout` (`smartPositioning.ts`,
lines 260–334).  The source's `cardSize` default is `{180, 120}`; the
embedding passes it explicitly. -/
def optimizeMultipleErrorLayout (errors : List HandwritingErrorInput)
    (viewportBounds : BoundingBox) (grid : SpatialGrid)
    (cardSize : CardSize) : List SuggestionPlacement :=
  optimizeLoop viewportBounds grid cardSize errors 0 [] []

/-- The buffered footprint a placement's card occupies (card rectangle
grown by the fixed 20px buffer on every side, as pushed onto
`usedPositions`). -/
def bufferedRect (p : SuggestionPlacement) : BoundingBox :=
  ⟨p.x - 20, p.y - 20, p.width + 40, p.height + 40⟩

/-- JavaScript-style strict rectangle intersection (shared edges do not
count). -/
def rectsIntersect (a b : BoundingBox) : Bool :=
  decide (a.x < b.x + b.w) && decide (a.x + a.w > b.x) &&
  decide (a.y < b.y + b.h) && decide (a.y + a.h > b.y)

/-- The x-offsets from the anchor at which a scored candidate can ever
lie: a compass direction times one of the four radii. -/
def candidateOffsets : List ℚ := [0, 80, -80, 120, -120, 160, -160, 200, -200]

/-- Every scored candidate lies at a compass offset from the anchor:
its x-distance to the error position is `0`, `±80`, `±120`, `±160` or
`±200`. -/
theorem generatePositionCandidates_offset
    (center : Point) (cardSize : CardSize) (vp : BoundingBox)
    (grid : SpatialGrid) (c : PositionCandidate)
    (hc : c ∈ generatePositionCandidates center cardSize vp grid) :
    c.x - center.x ∈ candidateOffsets := by
  unfold generatePositionCandidates at hc
  rw [List.mem_insertionSort] at hc
  simp only [List.mem_flatMap, List.mem_filterMap] at hc
  obtain ⟨dir, hdir, d, hd, hfd⟩ := hc
  split at hfd
  · obtain rfl := Option.some_injective _ hfd
    simp only [directions, List.mem_cons, List.not_mem_nil, or_false,
      Prod.mk.injEq] at hdir
    simp only [distanceOptions, List.mem_cons, List.not_mem_nil, or_false] at hd
    rcases hdir with ⟨-, rfl, rfl⟩ | ⟨-, rfl, rfl⟩ | ⟨-, rfl, rfl⟩ | ⟨-, rfl, rfl⟩ |
      ⟨-, rfl, rfl⟩ | ⟨-, rfl, rfl⟩ | ⟨-, rfl, rfl⟩ | ⟨-, rfl, rfl⟩ <;>
      rcases hd with rfl | rfl | rfl | rfl <;>
      norm_num [candidateOffsets]
  · exact absurd hfd (by simp)

/-- `100` is not a compass offset, so a placement at the fallback offset
is distinguishable from every candidate-based placement. -/
theorem candidateOffsets_ne_100 : ∀ q ∈ candidateOffsets, q ≠ 100 := by
  intro q hq
  fin_cases hq <;> norm_num

/-- Loop invariant of `optimizeLoop`: if every accumulated placement has
the card dimensions, lies at the fallback offset or a compass offset, has
its buffered footprint recorded in `usedPositions` when it is
candidate-based, and the accumulated placements are pairwise clear of each
other's buffered footprints, then the same holds of everything the loop
returns. -/
theorem optimizeLoop_invariant
    (vp : BoundingBox) (grid : SpatialGrid) (cardSize : CardSize) :
    ∀ (errors : List HandwritingErrorInput) (index : ℕ)
      (placements : List SuggestionPlacement) (used : List BoundingBox),
    (∀ p ∈ placements,
        p.width = cardSize.width ∧ p.height = cardSize.height ∧
        (p.x - p.leadLineStart.x = 100 ∨
         p.x - p.leadLineStart.x ∈ candidateOffsets)) →
    (∀ p ∈ placements,
        p.x - p.leadLineStart.x ≠ 100 → bufferedRect p ∈ used) →
    (∀ (i j : ℕ) (pa pb : SuggestionPlacement), i < j →
        placements[i]? = some pa → placements[j]? = some pb →
        pa.x - pa.leadLineStart.x ≠ 100 → pb.x - pb.leadLineStart.x ≠ 100 →
        overlapsUsed pb.x pb.y cardSize (bufferedRect pa) = false) →
    (∀ p ∈ optimizeLoop vp grid cardSize errors index placements used,
        p.width = cardSize.width ∧ p.height = cardSize.height ∧
        (p.x - p.leadLineStart.x = 100 ∨
         p.x - p.leadLineStart.x ∈ candidateOffsets)) ∧
    (∀ (i j : ℕ) (pa pb : SuggestionPlacement), i < j →
        (optimizeLoop vp grid cardSize errors index placements used)[i]? = some pa →
        (optimizeLoop vp grid cardSize errors index placements used)[j]? = some pb →
        pa.x - pa.leadLineStart.x ≠ 100 → pb.x - pb.leadLineStart.x ≠ 100 →
        overlapsUsed pb.x pb.y cardSize (bufferedRect pa) = false) := by
  intro errors
  induction errors with
  | nil =>
      intro index placements used h1 h2 h3
      exact ⟨h1, h3⟩
  | cons error rest ih =>
      intro index placements used h1 h2 h3
      simp only [optimizeLoop]
      rcases hfilt :
          (generatePositionCandidates
              ⟨error.bbox.x + error.bbox.w / 2, error.bbox.y + error.bbox.h / 2⟩
              cardSize vp grid).filter
            (fun candidate =>
              ! used.any (fun u =>
                  overlapsUsed candidate.x candidate.y cardSize u)) with
        _ | ⟨best, restC⟩
      · -- candidate exhaustion: the fallback placement, not recorded in
        -- `usedPositions`
        rw [hfilt]
        refine ih (index + 1) _ used ?_ ?_ ?_
        · intro p hp
          rcases List.mem_append.mp hp with hp | hp
          · exact h1 p hp
          · rw [List.mem_singleton] at hp
            subst hp
            refine ⟨rfl, rfl, Or.inl ?_⟩
            show error.bbox.x + error.bbox.w / 2 + 100 -
              (error.bbox.x + error.bbox.w / 2) = 100
            ring
        · intro p hp hne
          rcases List.mem_append.mp hp with hp | hp
          · exact h2 p hp hne
          · rw [List.mem_singleton] at hp
            subst hp
            exact absurd (by
              show error.bbox.x + error.bbox.w / 2 + 100 -
                (error.bbox.x + error.bbox.w / 2) = 100
              ring) hne
        · intro i j pa pb hij hgi hgj hna hnb
          have hjlt : j < placements.length + 1 := by
            have := (List.getElem?_eq_some_iff.mp hgj).1
            simpa using this
          rcases Nat.lt_or_ge j placements.length with hj | hj
          · rw [List.getElem?_append_left (Nat.lt_trans hij hj)] at hgi
            rw [List.getElem?_append_left hj] at hgj
            exact h3 i j pa pb hij hgi hgj hna hnb
          · have hjeq : j = placements.length := Nat.le_antisymm
              (Nat.lt_succ_iff.mp hjlt) hj
            subst hjeq
            rw [List.getElem?_concat_length] at hgj
            obtain rfl := Option.some_injective _ hgj.symm
            exact absurd (by
              show error.bbox.x + error.bbox.w / 2 + 100 -
                (error.bbox.x + error.bbox.w / 2) = 100
              ring) hnb
      · -- a free candidate was chosen: place it and occupy its buffered
        -- footprint
        rw [hfilt]
        have hb : best ∈ (generatePositionCandidates
            ⟨error.bbox.x + error.bbox.w / 2, error.bbox.y + error.bbox.h / 2⟩
            cardSize vp grid).filter
              (fun candidate =>
                ! used.any (fun u =>
                    overlapsUsed candidate.x candidate.y cardSize u)) := by
          rw [hfilt]; exact List.mem_cons_self _ _
        have hgen := List.mem_of_mem_filter hb
        have hfree : ∀ u ∈ used,
            overlapsUsed best.x best.y cardSize u = false := by
          have hpred := List.of_mem_filter hb
          rw [Bool.not_eq_eq_eq_not, Bool.not_true, List.any_eq_false] at hpred
          intro u hu
          exact Bool.eq_false_iff.mpr (hpred u hu)
        have hoff := generatePositionCandidates_offset _ _ _ _ _ hgen
        have hoff100 : best.x -
            (error.bbox.x + error.bbox.w / 2) ≠ 100 :=
          candidateOffsets_ne_100 _ hoff
        refine ih (index + 1) _ _ ?_ ?_ ?_
        · intro p hp
          rcases List.mem_append.mp hp with hp | hp
          · exact h1 p hp
          · rw [List.mem_singleton] at hp
            subst hp
            exact ⟨rfl, rfl, Or.inr hoff⟩
        · intro p hp hne
          rcases List.mem_append.mp hp with hp | hp
          · exact List.mem_append_left _ (h2 p hp hne)
          · rw [List.mem_singleton] at hp
            subst hp
            exact List.mem_append_right _ (List.mem_singleton.mpr rfl)
        · intro i j pa pb hij hgi hgj hna hnb
          have hjlt : j < placements.length + 1 := by
            have := (List.getElem?_eq_some_iff.mp hgj).1
            simpa using this
          rcases Nat.lt_or_ge j placements.length with hj | hj
          · rw [List.getElem?_append_left (Nat.lt_trans hij hj)] at hgi
            rw [List.getElem?_append_left hj] at hgj
            exact h3 i j pa pb hij hgi hgj hna hnb
          · have hjeq : j = placements.length := Nat.le_antisymm
              (Nat.lt_succ_iff.mp hjlt) hj
            subst hjeq
            rw [List.getElem?_concat_length] at hgj
            obtain rfl := Option.some_injective _ hgj.symm
            rw [List.getElem?_append_left hij] at hgi
            have hmem : bufferedRect pa ∈ used :=
              h2 pa (List.getElem?_mem hgi) hna
            exact hfree (bufferedRect pa) hmem

/-- C9 (amended): for every pair of distinct placements returned by one
call of `optimizeMultipleErrorLayout`, where neither placement lies at the
fallback offset (`x = leadLineStart.x + 100`; a candidate-based placement
always lies at a compass x-offset in `{0,±80,±120,±160,±200}`, never at
100, so use of the candidate-exhaustion fallback is observable in the
returned placement), the later placement's card rectangle does not
intersect the earlier placement's 20px-buffered footprint — in
particular the card rectangles themselves are disjoint.  The buffered
footprints of two such placements may still intersect each other by up to
the width of the buffer, which is what the original claim missed. -/
theorem optimizeMultipleErrorLayout_noOverlap
    (errors : List HandwritingErrorInput) (vp : BoundingBox)
    (grid : SpatialGrid) (cardSize : CardSize) :
    (∀ p ∈ optimizeMultipleErrorLayout errors vp grid cardSize,
        p.width = cardSize.width ∧ p.height = cardSize.height ∧
        (p.x - p.leadLineStart.x = 100 ∨
         p.x - p.leadLineStart.x ∈ candidateOffsets)) ∧
    (∀ (i j : ℕ) (pa pb : SuggestionPlacement), i < j →
        (optimizeMultipleErrorLayout errors vp grid cardSize)[i]? = some pa →
        (optimizeMultipleErrorLayout errors vp grid cardSize)[j]? = some pb →
        pa.x - pa.leadLineStart.x ≠ 100 → pb.x - pb.leadLineStart.x ≠ 100 →
        overlapsUsed pb.x pb.y cardSize (bufferedRect pa) = false) :=
  optimizeLoop_invariant vp grid cardSize errors 0 [] []
    (by intro p hp; simp at hp)
    (by intro p hp; simp at hp)
    (by intro i j pa pb hij hgi hgj; simp at hgi)

/-- The concrete scenario for claim C9: two handwriting errors, centred
at `(300,40)` and `(500,40)`, on an otherwise empty `600×200` viewport
(the tight viewport keeps the candidate lists short). -/
def cxErrors : List HandwritingErrorInput :=
  [⟨⟨290, 30, 20, 20⟩⟩, ⟨⟨490, 30, 20, 20⟩⟩]

/-- The viewport of the C9 scenario. -/
def cxViewport : BoundingBox := ⟨0, 0, 600, 200⟩

/-- An empty 32×32 spatial grid over the C9 viewport (no canvas content,
all densities zero). -/
def cxGrid : SpatialGrid :=
  ⟨32, 32, 25 / 4, List.replicate 32 (List.replicate 32 0),
   List.replicate 32 (List.replicate 32 false)⟩

/-- The source's default card size. -/
def cxCard : CardSize := ⟨180, 120⟩

/-- The first placement of the C9 scenario: for the first error the
west candidate at radius 120 scores highest. -/
def cxP0 : SuggestionPlacement :=
  ⟨180, 40, 180, 120, ⟨300, 40⟩, ⟨270, 100⟩, 0⟩

/-- The second placement of the C9 scenario: the west candidate at radius
120 of the second error, which passes the occupancy filter (its card
starts exactly where the first buffered footprint ends). -/
def cxP1 : SuggestionPlacement :=
  ⟨380, 40, 180, 120, ⟨500, 40⟩, ⟨470, 100⟩, 800⟩

/-- `getD` on a replicated list. -/
theorem getD_replicate {α : Type} (n i : ℕ) (a d : α) :
    (List.replicate n a).getD i d = if i < n then a else d := by
  rw [List.getD_eq_getElem?_getD, List.getElem?_replicate]
  split <;> rfl

/-- Every cell of the empty grid has zero density. -/
theorem densityAt_cxGrid (r c : ℤ) : densityAt cxGrid r c = 0 := by
  unfold densityAt cxGrid
  dsimp only
  rw [getD_replicate]
  split
  · rw [getD_replicate]
    split <;> rfl
  · rfl

/-- On the empty grid the density penalty vanishes for every position. -/
theorem calculateDensityPenalty_cxGrid (position : Point)
    (cardSize : CardSize) (vp : BoundingBox) :
    calculateDensityPenalty position cardSize vp cxGrid = 0 := by
  simp only [calculateDensityPenalty]
  have hsum : ∀ (cells : List (ℤ × ℤ)),
      (cells.map (fun rc => densityAt cxGrid rc.1 rc.2)).sum = 0 := by
    intro cells
    apply List.sum_eq_zero
    intro x hx
    rw [List.mem_map] at hx
    obtain ⟨rc, -, rfl⟩ := hx
    exact densityAt_cxGrid rc.1 rc.2
  rw [hsum]
  split <;> simp

set_option maxHeartbeats 1600000 in
/-- Evaluation of the placement engine on the C9 scenario. -/
theorem cxEval :
    optimizeMultipleErrorLayout cxErrors cxViewport cxGrid cxCard =
      [cxP0, cxP1] := by
  unfold optimizeMultipleErrorLayout cxErrors cxViewport cxCard cxP0 cxP1
  norm_num [optimizeLoop, generatePositionCandidates, calculatePositionScore,
    calculateDensityPenalty_cxGrid, calculateBoundaryBonus,
    calculateDistanceBonus, calculateDirectionBonus, directions,
    distanceOptions, List.insertionSort, List.orderedInsert, overlapsUsed,
    List.filterMap_cons, List.filterMap_nil, List.filter_cons,
    List.filter_nil, List.any_cons, List.any_nil, max_def]

/-- C9 (counterexample): in the concrete two-error scenario the engine
returns two placements, neither of which used the candidate-exhaustion
fallback (both lie at the compass offset `-120`, not at the fallback
offset `100`), yet their buffered footprints intersect: the first card
occupies `[180,360]×[40,160]`, the second `[380,560]×[40,160]`, and their
20px-buffered footprints `[160,380]×[20,180]` and `[360,580]×[20,180]`
share the strip `(360,380)×(20,180)`. -/
theorem optimizeMultipleErrorLayout_bufferedIntersect :
    optimizeMultipleErrorLayout cxErrors cxViewport cxGrid cxCard =
      [cxP0, cxP1] ∧
    cxP0.x - cxP0.leadLineStart.x ≠ 100 ∧
    cxP1.x - cxP1.leadLineStart.x ≠ 100 ∧
    rectsIntersect (bufferedRect cxP0) (bufferedRect cxP1) = true :=
  ⟨cxEval, by norm_num [cxP0], by norm_num [cxP1],
   by norm_num [rectsIntersect, bufferedRect, cxP0, cxP1,
     Bool.and_eq_true, decide_eq_true_eq]⟩

/-- Witness for the amended C9: in the concrete scenario the second
placement's card is clear of the first placement's buffered footprint. -/
theorem optimizeMultipleErrorLayout_noOverlap_witness :
    overlapsUsed cxP1.x cxP1.y cxCard (bufferedRect cxP0) = false :=
  (optimizeMultipleErrorLayout_noOverlap cxErrors cxViewport cxGrid cxCard).2
    0 1 cxP0 cxP1 (by norm_num) (by rw [cxEval]; rfl) (by rw [cxEval]; rfl)
    (by norm_num [cxP0]) (by norm_num [cxP1])
